import Mathlib

/-!
Shallow embedding of the CloudTracker validation workflow engine
(`backend/app/core/workflow_service.py`) together with theorems checking the
natural-language specification against it.

Modelling conventions:
* Python dictionaries with heterogeneous values become association lists over
  an inductive `PyVal` value type; `d.get(k)` becomes `pyGet`, Python
  truthiness becomes `truthy`.
* Database rows (`ChecklistItem`, `ValidationStepFinding`, step/workflow
  records) become plain structures; the step executors become pure functions
  from their inputs to a result structure.
* Sources of nondeterminism or external behaviour (the regex engine behind
  `re.finditer`, `random.choice` in the simulated platform/integration
  checks, the LLM report text, the outcome of `git clone`) are passed in as
  explicit parameters, so every theorem quantifies over them.
* Numeric compliance percentages are modelled exactly over `ℚ` (the Python
  code computes `passed / total * 100` in floating point on small integer
  inputs).
-/

namespace CloudTracker

/-- Value type for the heterogeneous Python dictionaries used as capability
maps and step details. -/
inductive PyVal where
  | bool (b : Bool)
  | int (n : Int)
  | str (s : String)
  | dict (d : List (String × PyVal))
  | list (l : List PyVal)

/-- A Python dictionary with string keys, as an association list in insertion
order. -/
abbrev Dict := List (String × PyVal)

/-- Lookup of the first binding of a key, i.e. Python `d.get(k)` (keys are
unique in every dictionary the code builds). -/
def pyGet : Dict → String → Option PyVal
  | [], _ => none
  | (k, v) :: t, key => if key == k then some v else pyGet t key

/-- Python truthiness of a value. -/
def truthy : PyVal → Bool
  | .bool b => b
  | .int n => n != 0
  | .str s => s != ""
  | .dict d => !d.isEmpty
  | .list l => !l.isEmpty

/-- Truthiness of `d.get(k)`: a missing key (`None`) is falsy. -/
def truthyOpt : Option PyVal → Bool
  | none => false
  | some v => truthy v

/-- Integer read with default, for `d.get(k, 0)`-style accesses whose stored
values are always integers in this code base. -/
def pyGetIntD (o : Option PyVal) (dflt : Int) : Int :=
  match o with
  | some (.int n) => n
  | _ => dflt

/-- Inner dictionary read, for `d.get(k, {})`-style accesses whose stored
values are always dictionaries in this code base. -/
def pyGetDict (d : Dict) (k : String) : Dict :=
  match pyGet d k with
  | some (.dict inner) => inner
  | _ => []

/-- Python `d[k] = v`: replace the binding in place, or append a new one. -/
def dictSet (d : Dict) (k : String) (v : PyVal) : Dict :=
  match d with
  | [] => [(k, v)]
  | (k0, v0) :: t => if k == k0 then (k, v) :: t else (k0, v0) :: dictSet t k v

/-- Python `d1.update(d2)`: existing keys of `d1` keep their position but take
the value from `d2` when present; keys only in `d2` are appended in order. -/
def dictUpdate (d1 d2 : Dict) : Dict :=
  (d1.map fun kv => match pyGet d2 kv.1 with
    | some w => (kv.1, w)
    | none => kv)
  ++ d2.filter fun kv => (pyGet d1 kv.1).isNone

/-- Python `d[k] = d.get(k, 0) + 1` for the file-type histograms. -/
def dictIncr (d : Dict) (k : String) : Dict :=
  match pyGet d k with
  | some v => dictSet d k (.int (pyGetIntD (some v) 0 + 1))
  | none => d ++ [(k, .int 1)]

/-- ASCII lowercasing of a string, character by character; models Python
`str.lower()` on the ASCII keywords and report text the parsers compare. -/
def strLower (s : String) : String :=
  String.mk (s.toList.map Char.toLower)

/-- Whether `needle` occurs at the head of `hay`. -/
def charsLeadsWith : List Char → List Char → Bool
  | [], _ => true
  | _ :: _, [] => false
  | a :: as, b :: bs => a == b && charsLeadsWith as bs

/-- Whether `needle` occurs anywhere in `hay`; models Python `needle in hay`
and `hay.find(needle) >= 0` (both true for an empty needle). -/
def charsOccurs (needle : List Char) : List Char → Bool
  | [] => needle.isEmpty
  | h :: t => charsLeadsWith needle (h :: t) || charsOccurs needle t

/-- String form of `charsOccurs`. -/
def strOccurs (needle hay : String) : Bool :=
  charsOccurs needle.toList hay.toList

/-- Whether any of the given needles occurs in `hay`, modelling
`any(x in hay for x in needles)`. -/
def anyOccurs (needles : List String) (hay : String) : Bool :=
  needles.any fun x => strOccurs x hay

/-- Characters strictly after the last occurrence of `c`; the whole list when
`c` does not occur (helper for `os.path.splitext`). -/
def afterLast (c : Char) (l : List Char) : List Char :=
  l.foldl (fun acc x => if x == c then [] else acc ++ [x]) []

/-- Helper for `os.path.splitext`: strip the run of leading dots of a base
name. -/
def dropLeadingDots : List Char → List Char
  | [] => []
  | c :: t => if c == '.' then dropLeadingDots t else c :: t

/-- Extension part (with dot) of a base name containing no path separator: it
starts at the last dot, provided some non-dot character precedes that dot. -/
def extWithDot (bn : List Char) : List Char :=
  if (dropLeadingDots bn).contains '.' then '.' :: afterLast '.' bn else []

/-- Models `os.path.splitext(path)[1]` for POSIX paths. -/
def splitExtension (path : String) : String :=
  String.mk (extWithDot (afterLast '/' path.toList))

/-- Severity of a `ValidationStepFinding` (models `ValidationSeverity`). -/
inductive Severity where
  | info
  | warning
  | error
  | critical
deriving DecidableEq, Repr

/-- Status of a `ValidationStep` (models `ValidationStepStatus`). -/
inductive StepStatus where
  | queued
  | running
  | completed
  | failed
  | skipped
deriving DecidableEq, Repr

/-- Status of a `ValidationWorkflow` (models `ValidationStatus`). -/
inductive WorkflowStatus where
  | pending
  | inProgress
  | completed
  | failed
deriving DecidableEq, Repr

/-- A checklist item row (`ChecklistItem`): the fields read or mutated by the
workflow engine. -/
structure Item where
  description : String
  status : String
  evidence : Option String
  comments : String
deriving DecidableEq, Repr

/-- A finding row (`ValidationStepFinding`) as created by the step executors
(the executors never set `code_location`). -/
structure Finding where
  description : String
  severity : Severity
  recommendation : String
deriving DecidableEq, Repr

/-- The application row fields the validation rules receive (the rule
functions take the application but never read it). -/
structure Application where
  id : String
  name : String
deriving DecidableEq, Repr

/-- Result of one validation rule, i.e. the `{"validated": ..., ...}`
dictionaries returned by the `_validate_*` rule functions. -/
structure RuleResult where
  validated : Bool
  details : Option String := none
  reason : Option String := none
  recommendation : Option String := none
deriving Repr

/-- Models `WorkflowService._validate_logs_searchable`. -/
def validateLogsSearchable (repoAnalysis : Dict) (_app : Application) : RuleResult :=
  if truthyOpt (pyGet repoAnalysis "has_logging_framework") &&
      truthyOpt (pyGet repoAnalysis "has_log_search_integration") then
    { validated := true, details := some "Found logging framework and log search integration" }
  else
    { validated := false, reason := some "Could not confirm logs are searchable",
      recommendation := some "Ensure the application uses a logging framework and integrates with a log search system" }

/-- Models `WorkflowService._validate_no_confidential_logging` (note the
default `True` in `repo_analysis.get("has_confidential_data_logging", True)`). -/
def validateNoConfidentialLogging (repoAnalysis : Dict) (_app : Application) : RuleResult :=
  if !truthy ((pyGet repoAnalysis "has_confidential_data_logging").getD (.bool true)) then
    { validated := true, details := some "No patterns of confidential data logging detected" }
  else
    { validated := false, reason := some "Detected potential confidential data in logs",
      recommendation := some "Review logging statements for potential PII, credentials, or sensitive data" }

/-- Models `WorkflowService._validate_audit_trail_logs`. -/
def validateAuditTrailLogs (repoAnalysis : Dict) (_app : Application) : RuleResult :=
  if truthyOpt (pyGet repoAnalysis "has_audit_logs") then
    { validated := true, details := some "Audit logging patterns detected" }
  else
    { validated := false, reason := some "Could not detect audit logging",
      recommendation := some "Implement audit logging for security-relevant events and user actions" }

/-- Models `WorkflowService._validate_tracking_id`. -/
def validateTrackingId (repoAnalysis : Dict) (_app : Application) : RuleResult :=
  if truthyOpt (pyGet repoAnalysis "has_trace_id") then
    { validated := true, details := some "Request tracking/trace ID patterns detected" }
  else
    { validated := false, reason := some "Could not detect tracking ID implementation",
      recommendation := some "Implement request tracking or trace IDs to correlate log messages across services" }

/-- Models `WorkflowService._validate_api_logging`. -/
def validateApiLogging (repoAnalysis : Dict) (_app : Application) : RuleResult :=
  if truthyOpt (pyGet repoAnalysis "has_api_call_logging") then
    { validated := true, details := some "API call logging detected" }
  else
    { validated := false, reason := some "Could not confirm API call logging",
      recommendation := some "Ensure all REST API calls are logged with appropriate details" }

/-- Models `WorkflowService._validate_app_logging`: reads the nested
`patterns_found.logging_patterns` count and requires more than 10 matches. -/
def validateAppLogging (repoAnalysis : Dict) (_app : Application) : RuleResult :=
  let patterns := pyGetIntD (pyGet (pyGetDict repoAnalysis "patterns_found") "logging_patterns") 0
  if patterns > 10 then
    { validated := true,
      details := some ("Found " ++ toString patterns ++ " logging patterns in the codebase") }
  else
    { validated := false, reason := some "Insufficient application logging detected",
      recommendation := some "Implement comprehensive application logging throughout the codebase" }

/-- Models `WorkflowService._validate_ui_error_logging`. -/
def validateUiErrorLogging (repoAnalysis : Dict) (_app : Application) : RuleResult :=
  if truthyOpt (pyGet repoAnalysis "has_ui_error_logging") then
    { validated := true, details := some "UI error logging detected" }
  else
    { validated := false, reason := some "Could not confirm UI error logging",
      recommendation := some "Implement client-side error logging and reporting" }

/-- Models `WorkflowService._validate_retry_logic`. -/
def validateRetryLogic (repoAnalysis : Dict) (_app : Application) : RuleResult :=
  if truthyOpt (pyGet repoAnalysis "has_retry_logic") then
    { validated := true, details := some "Retry logic patterns detected" }
  else
    { validated := false, reason := some "Could not detect retry logic",
      recommendation := some "Implement retry logic for transient failures in external service calls" }

/-- Models `WorkflowService._validate_io_timeouts`. -/
def validateIoTimeouts (repoAnalysis : Dict) (_app : Application) : RuleResult :=
  if truthyOpt (pyGet repoAnalysis "has_io_timeouts") then
    { validated := true, details := some "IO timeout patterns detected" }
  else
    { validated := false, reason := some "Could not detect timeout settings on IO operations",
      recommendation := some "Set appropriate timeouts on all IO and network operations" }

/-- Models `WorkflowService._validate_auto_scaling`. -/
def validateAutoScaling (repoAnalysis : Dict) (_app : Application) : RuleResult :=
  if truthyOpt (pyGet repoAnalysis "has_auto_scaling_config") then
    { validated := true, details := some "Auto-scaling configuration detected" }
  else
    { validated := false, reason := some "Could not detect auto-scaling configuration",
      recommendation := some "Configure auto-scaling for the application deployment" }

/-- Models `WorkflowService._validate_throttling`. -/
def validateThrottling (repoAnalysis : Dict) (_app : Application) : RuleResult :=
  if truthyOpt (pyGet repoAnalysis "has_throttling") then
    { validated := true, details := some "Request throttling mechanisms detected" }
  else
    { validated := false, reason := some "Could not detect request throttling implementation",
      recommendation := some "Implement request throttling to handle traffic spikes gracefully" }

/-- Models `WorkflowService._validate_circuit_breakers`. -/
def validateCircuitBreakers (repoAnalysis : Dict) (_app : Application) : RuleResult :=
  if truthyOpt (pyGet repoAnalysis "has_circuit_breaker") then
    { validated := true, details := some "Circuit breaker patterns detected" }
  else
    { validated := false, reason := some "Could not detect circuit breaker implementation",
      recommendation := some "Implement circuit breakers for outgoing service calls to prevent cascading failures" }

/-- Models `WorkflowService._validate_system_error_logging`. -/
def validateSystemErrorLogging (repoAnalysis : Dict) (_app : Application) : RuleResult :=
  if truthyOpt (pyGet repoAnalysis "has_system_error_logging") then
    { validated := true, details := some "System error logging detected" }
  else
    { validated := false, reason := some "Could not confirm system error logging",
      recommendation := some "Ensure all system errors are appropriately logged" }

/-- Models `WorkflowService._validate_http_error_codes`. -/
def validateHttpErrorCodes (repoAnalysis : Dict) (_app : Application) : RuleResult :=
  if truthyOpt (pyGet repoAnalysis "has_standard_http_codes") then
    { validated := true, details := some "Standard HTTP error code usage detected" }
  else
    { validated := false, reason := some "Could not confirm standard HTTP error code usage",
      recommendation := some "Use standard HTTP status codes consistently in all API responses" }

/-- Models `WorkflowService._validate_client_error_tracking`. -/
def validateClientErrorTracking (repoAnalysis : Dict) (_app : Application) : RuleResult :=
  if truthyOpt (pyGet repoAnalysis "has_client_error_tracking") then
    { validated := true, details := some "Client error tracking implementation detected" }
  else
    { validated := false, reason := some "Could not detect client error tracking",
      recommendation := some "Implement client-side error tracking for better visibility into frontend issues" }

/-- Models `WorkflowService._validate_regression_testing`: automated tests
present and coverage strictly above 70. -/
def validateRegressionTesting (repoAnalysis : Dict) (_app : Application) : RuleResult :=
  if truthyOpt (pyGet repoAnalysis "has_automated_tests") &&
      decide (pyGetIntD (pyGet repoAnalysis "test_coverage") 0 > 70) then
    { validated := true,
      details := some ("Automated tests detected with " ++
        toString (pyGetIntD (pyGet repoAnalysis "test_coverage") 0) ++ "% coverage") }
  else
    { validated := false, reason := some "Insufficient automated testing",
      recommendation := some "Implement comprehensive automated regression tests with good coverage" }

/-- The fixed `validation_rules` table of `_validate_app_requirements`:
exact requirement description to rule function, in source order. -/
def ruleTable : List (String × (Dict → Application → RuleResult)) :=
  [("Logs are searchable and available", validateLogsSearchable),
   ("Avoid logging confidential data", validateNoConfidentialLogging),
   ("Create audit trail logs", validateAuditTrailLogs),
   ("Implement tracking ID for log messages", validateTrackingId),
   ("Log REST API calls", validateApiLogging),
   ("Log application messages", validateAppLogging),
   ("Client UI errors are logged", validateUiErrorLogging),
   ("Retry Logic", validateRetryLogic),
   ("Set timeouts on IO operation", validateIoTimeouts),
   ("Auto scale", validateAutoScaling),
   ("Throttling, drop request", validateThrottling),
   ("Set circuit breakers on outgoing requests", validateCircuitBreakers),
   ("Log system errors", validateSystemErrorLogging),
   ("Use HTTP standard error codes", validateHttpErrorCodes),
   ("Include Client error tracking", validateClientErrorTracking),
   ("Automated Regression Testing", validateRegressionTesting)]

/-- Exact-match lookup `item.description in validation_rules`. -/
def ruleLookup (desc : String) : Option (Dict → Application → RuleResult) :=
  match ruleTable.find? (fun e => e.1 == desc) with
  | some e => some e.2
  | none => none

/-- Models `WorkflowService._simulate_repository_analysis`: the fixed
simulated capability map used when real analysis cannot run. -/
def simulatedRepositoryAnalysis : Dict :=
  [("has_logging_framework", .bool true),
   ("logging_frameworks", .list [.str "log4j", .str "slf4j"]),
   ("has_log_search_integration", .bool true),
   ("has_confidential_data_logging", .bool false),
   ("has_audit_logs", .bool true),
   ("has_trace_id", .bool true),
   ("has_api_call_logging", .bool true),
   ("has_ui_error_logging", .bool true),
   ("has_retry_logic", .bool true),
   ("has_io_timeouts", .bool true),
   ("has_auto_scaling_config", .bool true),
   ("has_throttling", .bool true),
   ("has_circuit_breaker", .bool true),
   ("has_system_error_logging", .bool true),
   ("has_standard_http_codes", .bool true),
   ("has_client_error_tracking", .bool true),
   ("has_automated_tests", .bool true),
   ("test_coverage", .int 87),
   ("file_types", .dict [("java", .int 45), ("js", .int 20), ("xml", .int 15),
      ("properties", .int 5), ("yaml", .int 8)]),
   ("patterns_found", .dict [("logging_patterns", .int 120),
      ("confidential_data_patterns", .int 0), ("audit_patterns", .int 25),
      ("trace_id_patterns", .int 35), ("retry_patterns", .int 18),
      ("timeout_patterns", .int 23), ("circuit_breaker_patterns", .int 12)])]

/-- Aggregate counts a requirement step stores into `step.details` (the
formatted `result_summary` strings are not modelled separately; every number
that appears in them is a field here). -/
structure ReqDetails where
  totalItems : ℕ
  passedItems : ℕ
  failedItems : ℕ
  compliancePercentage : ℚ
deriving DecidableEq, Repr

/-- Persisted outcome of one requirement-type step execution: final step row
state, emitted findings, mutated checklist items, and the success flag the
executor returns to the orchestrator. -/
structure ReqStepResult where
  status : StepStatus
  errorMessage : Option String
  details : Option ReqDetails
  findings : List Finding
  itemsOut : List Item
  success : Bool
deriving Repr

/-- Compliance percentage as computed at `workflow_service.py:641` and
`:1402`: `(passed_items / total_items * 100) if total_items > 0 else 0`. -/
def compliancePct (passed total : ℕ) : ℚ :=
  if 0 < total then (passed : ℚ) / (total : ℚ) * 100 else 0

/-- Per-item outcome inside `_validate_app_requirements`: whether the item
counted as passed, the mutated item row, and the finding emitted on failure. -/
structure ItemEval where
  passed : Bool
  itemOut : Item
  finding : Option Finding
deriving Repr

/-- One iteration of the checklist loop of `_validate_app_requirements`
(`workflow_service.py:605-638`): rule lookup by exact description match, with
the `{"validated": False, "reason": "No matching validation rule found"}`
default when no rule exists; passing items become `Verified` with the
repository URL as evidence, failing items keep their status and get a
warning finding plus a failure comment. -/
def evalAppItem (repoAnalysis : Dict) (repositoryUrl : String) (app : Application)
    (item : Item) : ItemEval :=
  let validationResult :=
    match ruleLookup item.description with
    | some f => f repoAnalysis app
    | none => { validated := false, reason := some "No matching validation rule found" }
  if validationResult.validated then
    { passed := true,
      itemOut := { item with
        status := "Verified",
        evidence := some repositoryUrl,
        comments := "Automatically verified: " ++ validationResult.details.getD "" },
      finding := none }
  else
    { passed := false,
      itemOut := { item with
        comments := "Validation failed: " ++ validationResult.reason.getD "Unknown reason" },
      finding := some
        { description := "Failed to validate requirement: " ++ item.description,
          severity := .warning,
          recommendation :=
            validationResult.recommendation.getD "Review requirement implementation and update code" } }

/-- Models `WorkflowService._validate_app_requirements`
(`workflow_service.py:504-684`) after the step row was found: collect every
checklist item of the application-type categories, validate each item against
the capability map, and complete the step with aggregate counts. The step has
no skip branch and, on this no-exception path, always completes with
`success := true`. -/
def validateAppRequirements (appCategories : List (List Item))
    (repositoryUrl : String) (repoAnalysis : Dict) (app : Application) : ReqStepResult :=
  let checklistItems := appCategories.flatten
  let evals := checklistItems.map (evalAppItem repoAnalysis repositoryUrl app)
  let passedItems := (evals.filter (fun e => e.passed)).length
  let failedItems := (evals.filter (fun e => !e.passed)).length
  { status := .completed,
    errorMessage := none,
    details := some
      { totalItems := checklistItems.length,
        passedItems := passedItems,
        failedItems := failedItems,
        compliancePercentage := compliancePct passedItems checklistItems.length },
    findings := evals.filterMap (fun e => e.finding),
    itemsOut := evals.map (fun e => e.itemOut),
    success := true }

/-- One iteration of the checklist loop of `_validate_platform_requirements`
(`workflow_service.py:1378-1399`). The external platform check simulated by
`random.choice([True, True, False])` is passed in as the `passes` oracle.
Failing items are left untouched apart from the emitted finding. -/
def evalPlatformItem (passes : Item → Bool) (platformId : String) (item : Item) : ItemEval :=
  if passes item then
    { passed := true,
      itemOut := { item with
        status := "Verified",
        evidence := some ("https://platform-verification/" ++ platformId),
        comments := "Automatically verified by validation workflow" },
      finding := none }
  else
    { passed := false,
      itemOut := item,
      finding := some
        { description := "Failed to validate platform requirement: " ++ item.description,
          severity := .warning,
          recommendation := "Review platform configuration and update as needed" } }

/-- Models `WorkflowService._validate_platform_requirements`
(`workflow_service.py:1310-1440`) after the step row was found: the step is
skipped exactly when the application has no platform categories at all
(`if not application.platform_categories`); otherwise every item of every
platform category is checked and the step completes — with `success := true`
even when items failed. -/
def validatePlatformRequirements (platformCategories : List (List Item))
    (passes : Item → Bool) (platformId : String) : ReqStepResult :=
  if platformCategories.isEmpty then
    { status := .skipped,
      errorMessage := none,
      details := none,
      findings := [],
      itemsOut := [],
      success := true }
  else
    let checklistItems := platformCategories.flatten
    let evals := checklistItems.map (evalPlatformItem passes platformId)
    let passedItems := (evals.filter (fun e => e.passed)).length
    let failedItems := (evals.filter (fun e => !e.passed)).length
    { status := .completed,
      errorMessage := none,
      details := some
        { totalItems := checklistItems.length,
          passedItems := passedItems,
          failedItems := failedItems,
          compliancePercentage := compliancePct passedItems checklistItems.length },
      findings := evals.filterMap (fun e => e.finding),
      itemsOut := evals.map (fun e => e.itemOut),
      success := true }

/-- Persisted outcome of the external-integration step: final step row state,
per-integration status strings in iteration order, counters, findings, and
the returned success flag. -/
structure IntegrationStepResult where
  status : StepStatus
  errorMessage : Option String
  results : List (String × String)
  successCount : ℕ
  failedCount : ℕ
  findings : List Finding
  success : Bool
deriving Repr

/-- Models `WorkflowService._check_external_integrations`
(`workflow_service.py:1442-1576`) after the step row was found. The
connectivity check simulated by `random.choice([True, True, True, False])`
is passed in as the `healthOk` oracle. Each failing integration records a
`failed` entry and an error-severity finding; the step row itself is always
set to `completed`, and only the returned `success` flag reflects failures
(`success = failed_count == 0`). -/
def checkExternalIntegrations (integrations : List (String × PyVal))
    (healthOk : String → Bool) : IntegrationStepResult :=
  let evals := integrations.map fun nc =>
    if healthOk nc.1 then
      (nc.1, "success", (none : Option Finding))
    else
      (nc.1, "failed", some
        { description := "Failed to integrate with " ++ nc.1,
          severity := Severity.error,
          recommendation := "Check " ++ nc.1 ++ " configuration and credentials" })
  let failedCount := (evals.filter (fun e => e.2.1 == "failed")).length
  { status := .completed,
    errorMessage := none,
    results := evals.map (fun e => (e.1, e.2.1)),
    successCount := (evals.filter (fun e => e.2.1 == "success")).length,
    failedCount := failedCount,
    findings := evals.filterMap (fun e => e.2.2),
    success := failedCount == 0 }

/-- How one loop iteration of `run_validation_workflow` ends
(`workflow_service.py:186-272`): the executor returned a result dictionary
with a success flag, the step was skipped inline (no integrations configured,
or an unimplemented step type — both set `result = {"success": True, ...}`),
an exception escaped the executor and was caught by the per-step handler, or
the step row was missing and the loop continued. -/
inductive StepRun where
  | executed (success : Bool)
  | skippedStep
  | raised (msg : String)
  | missing
deriving DecidableEq, Repr

/-- Success flag a step run contributes to aggregation; `none` for a missing
step row, which the loop skips without touching `all_steps_successful`. -/
def stepSuccessFlag : StepRun → Option Bool
  | .executed s => some s
  | .skippedStep => some true
  | .raised _ => some false
  | .missing => none

/-- One update of the `all_steps_successful` accumulator. -/
def stepFold (acc : Bool) (r : StepRun) : Bool :=
  match r with
  | .executed s => if s then acc else false
  | .skippedStep => acc
  | .raised _ => false
  | .missing => acc

/-- The `all_steps_successful` accumulation over the step loop. -/
def foldSteps (runs : List StepRun) : Bool :=
  runs.foldl stepFold true

/-- Terminal workflow record written by `run_validation_workflow`
(`workflow_service.py:274-278`). -/
structure WorkflowOutcome where
  status : WorkflowStatus
  overallCompliance : Bool
  summary : String
deriving DecidableEq, Repr

/-- Models the terminal bookkeeping of
`WorkflowService.run_validation_workflow`: after the sequential step loop the
workflow is `completed` iff every step run was successful, and
`overall_compliance` is that same flag. -/
def runValidationWorkflow (appName : String) (runs : List StepRun) : WorkflowOutcome :=
  let allStepsSuccessful := foldSteps runs
  { status := if allStepsSuccessful then .completed else .failed,
    overallCompliance := allStepsSuccessful,
    summary := "Validation " ++ (if allStepsSuccessful then "passed" else "failed") ++
      " for " ++ appName }

/-- Evidence URL computed by `_update_checklist_items`
(`workflow_service.py:1612-1614`). -/
def evidenceUrl (repositoryUrl : Option String) (commitId : Option String) : Option String :=
  match commitId with
  | some c =>
    match repositoryUrl with
    | some u => some (u ++ "/tree/" ++ c)
    | none => none
  | none => repositoryUrl

/-- Whether any finding description contains the item description, i.e.
`any(finding.description.find(item.description) >= 0 for finding in
all_findings)`. -/
def itemHasIssue (findings : List Finding) (item : Item) : Bool :=
  findings.any fun finding => strOccurs item.description finding.description

/-- One item update of the reconciliation pass `_update_checklist_items`
(`workflow_service.py:1617-1648`): an item mentioned by a finding becomes
`In Progress`; otherwise an item that is not already `Verified` becomes
`Completed` with the workflow evidence URL and a workflow-stamped comment
(`wfComment` stands for the fixed string naming the workflow id and
completion time). -/
def reconcileItem (findings : List Finding) (evidence : Option String)
    (wfComment : String) (item : Item) : Item :=
  if itemHasIssue findings item then
    { item with
      status := "In Progress",
      comments := "Validation found issues that need to be addressed" }
  else if item.status != "Verified" then
    { item with
      status := "Completed",
      evidence := evidence,
      comments := wfComment }
  else
    item

/-- The reconciliation pass over a list of checklist items (the code applies
the same per-item body to the application-category and platform-category
trees). -/
def reconcileItems (findings : List Finding) (evidence : Option String)
    (wfComment : String) (items : List Item) : List Item :=
  items.map (reconcileItem findings evidence wfComment)

/-- Findings collected by `_update_checklist_items`
(`workflow_service.py:1598-1607`): only findings of `completed` steps
participate in reconciliation. -/
def collectCompletedFindings (steps : List (StepStatus × List Finding)) : List Finding :=
  (steps.filter (fun s => s.1 = StepStatus.completed)).flatMap (fun s => s.2)

/-- How the `git clone` subprocess of `_analyze_repository` ended
(`workflow_service.py:748-769`): success with a cloned tree, a non-zero exit
with its stderr, the 5-minute `subprocess.TimeoutExpired`, or another
exception while cloning. -/
inductive CloneOutcome where
  | cloned (files : List (String × String))
  | exitNonzero (stderr : String)
  | timedOut
  | cloneRaised (msg : String)

/-- Models the clone stage of `WorkflowService._analyze_repository`
(`workflow_service.py:748-769`): every clone failure returns an
`{"error": ...}` dictionary as the analysis result — no exception is raised
and no retry happens — while a successful clone hands the collected files to
the rest of the analysis chain (`analyzeFiles`). -/
def analyzeRepository (outcome : CloneOutcome)
    (analyzeFiles : List (String × String) → Dict) : Dict :=
  match outcome with
  | .cloned files => analyzeFiles files
  | .exitNonzero stderr => [("error", .str ("Failed to clone repository: " ++ stderr))]
  | .timedOut => [("error", .str "Repository clone timed out")]
  | .cloneRaised msg => [("error", .str ("Error cloning repository: " ++ msg))]

/-- Models the merge of LLM and heuristic analysis results at
`workflow_service.py:858-861`: `llm_results.update(regex_results)` followed
by `return llm_results`. -/
def mergeAnalysisResults (llmResults regexResults : Dict) : Dict :=
  dictUpdate llmResults regexResults

/-- File-type histogram built from `(path, content)` pairs with
`ext = os.path.splitext(path)[1].lower()[1:]`, counting only non-empty
extensions (`_parse_llm_analysis_report`, `workflow_service.py:922-925`). -/
def llmFileTypes (filesData : List (String × String)) : Dict :=
  filesData.foldl
    (fun acc pc =>
      let ext := (strLower (splitExtension pc.1)).drop 1
      if ext != "" then dictIncr acc ext else acc)
    []

/-- Test-coverage proxy shared by both analyzers
(`workflow_service.py:927-934` and `:1770-1774`): the percentage of files
whose path contains `test` or `spec` (case-insensitively), truncated to an
integer and capped at 100; 0 for an empty corpus. -/
def testCoverageOf (filesData : List (String × String)) : Int :=
  let testFiles := (filesData.filter fun fc =>
    strOccurs "test" (strLower fc.1) || strOccurs "spec" (strLower fc.1)).length
  let totalFiles := filesData.length
  if totalFiles > 0 then min 100 ((testFiles * 100) / totalFiles : Int) else 0

/-- Models `WorkflowService._parse_llm_analysis_report`
(`workflow_service.py:881-1032`): keyword heuristics over the free-text
report, section-gated exactly as in the source, producing the same
capability-map shape (and key order) as the initialisation dictionary with
every mutation applied. -/
def parseLlmAnalysisReport (report : String) (filesData : List (String × String)) : Dict :=
  let lower := strLower report
  let loggingSection :=
    strOccurs "## Logging Analysis" report || strOccurs "# Logging Analysis" report
  let availabilitySection :=
    strOccurs "## Availability Analysis" report || strOccurs "# Availability Analysis" report
  let errorSection :=
    strOccurs "## Error Handling Analysis" report || strOccurs "# Error Handling Analysis" report
  let hasLoggingFramework := loggingSection &&
    anyOccurs ["log4j", "slf4j", "winston", "bunyan", "logback", "log4net", "nlog"] lower
  let loggingFrameworks :=
    if hasLoggingFramework then
      (["log4j", "slf4j", "winston", "bunyan", "logback", "log4net", "nlog",
        "java.util.logging"].filter fun fw => strOccurs fw lower)
    else []
  let hasLogSearch := loggingSection &&
    anyOccurs ["splunk", "elasticsearch", "kibana", "datadog", "logstash", "graylog"] lower
  let hasConfidential := loggingSection &&
    anyOccurs ["password", "token", "secret", "credential", "pii",
      "personally identifiable"] lower &&
    !(strOccurs "not log" lower || strOccurs "avoid logging" lower ||
      strOccurs "properly mask" lower)
  let hasAudit := loggingSection && strOccurs "audit" lower && strOccurs "log" lower
  let hasTrace := loggingSection &&
    anyOccurs ["traceid", "correlation id", "trace id", "request id", "transaction id"] lower
  let hasApiCall := loggingSection &&
    ((strOccurs "api" lower && strOccurs "log" lower) || strOccurs "rest" lower)
  let hasUiError := loggingSection && strOccurs "ui" lower && strOccurs "error" lower &&
    strOccurs "log" lower
  let hasSystemError := loggingSection && strOccurs "system" lower &&
    strOccurs "error" lower && strOccurs "log" lower
  let hasRetry := availabilitySection && strOccurs "retry" lower
  let hasTimeouts := availabilitySection && strOccurs "timeout" lower
  let hasAutoScaling := availabilitySection && strOccurs "auto" lower && strOccurs "scal" lower
  let hasThrottling := availabilitySection &&
    anyOccurs ["throttle", "rate limit", "ratelimit"] lower
  let hasCircuit := availabilitySection && strOccurs "circuit breaker" lower
  let hasHttpCodes := errorSection &&
    anyOccurs ["http", "status code", "response code", "error code"] lower
  let hasClientTracking := errorSection && strOccurs "client" lower &&
    strOccurs "error" lower && strOccurs "track" lower
  let hasAutomatedTests := errorSection &&
    anyOccurs ["test", "unit test", "integration test", "automated test"] lower
  let ten (b : Bool) : PyVal := .int (if b then 10 else 0)
  [("has_logging_framework", .bool hasLoggingFramework),
   ("has_log_search_integration", .bool hasLogSearch),
   ("has_confidential_data_logging", .bool hasConfidential),
   ("has_audit_logs", .bool hasAudit),
   ("has_trace_id", .bool hasTrace),
   ("has_api_call_logging", .bool hasApiCall),
   ("has_ui_error_logging", .bool hasUiError),
   ("has_retry_logic", .bool hasRetry),
   ("has_io_timeouts", .bool hasTimeouts),
   ("has_auto_scaling_config", .bool hasAutoScaling),
   ("has_throttling", .bool hasThrottling),
   ("has_circuit_breaker", .bool hasCircuit),
   ("has_system_error_logging", .bool hasSystemError),
   ("has_standard_http_codes", .bool hasHttpCodes),
   ("has_client_error_tracking", .bool hasClientTracking),
   ("has_automated_tests", .bool hasAutomatedTests),
   ("test_coverage", .int (testCoverageOf filesData)),
   ("patterns_found", .dict
     [("logging_patterns", ten hasLoggingFramework),
      ("confidential_data_patterns", ten hasConfidential),
      ("audit_patterns", ten hasAudit),
      ("trace_id_patterns", ten hasTrace),
      ("retry_patterns", ten hasRetry),
      ("timeout_patterns", ten hasTimeouts),
      ("circuit_breaker_patterns", ten hasCircuit)]),
   ("file_types", .dict (llmFileTypes filesData)),
   ("logging_frameworks", .list (loggingFrameworks.map .str)),
   ("raw_report", .str report)]

/-- Capability flags accumulated by the regex analyzer while scanning. -/
structure RegexFlags where
  hasLoggingFramework : Bool := false
  hasLogSearch : Bool := false
  hasConfidential : Bool := false
  hasAudit : Bool := false
  hasTrace : Bool := false
  hasApiCall : Bool := false
  hasUiError : Bool := false
  hasRetry : Bool := false
  hasTimeouts : Bool := false
  hasAutoScaling : Bool := false
  hasThrottling : Bool := false
  hasCircuit : Bool := false
  hasSystemError : Bool := false
  hasHttpCodes : Bool := false
  hasClientTracking : Bool := false
deriving Repr

/-- Flag updates performed for each regex match inside
`_analyze_repository_with_regex` (`workflow_service.py:1726-1763`); all the
substring tests are on the pattern text, so one match suffices to apply
them. -/
def updateRegexFlags (category pattern : String) (s : RegexFlags) : RegexFlags :=
  if category == "logging" then
    { s with
      hasLoggingFramework := s.hasLoggingFramework ||
        (strOccurs "log4j" pattern || strOccurs "slf4j" pattern ||
         strOccurs "winston" pattern || strOccurs "bunyan" pattern),
      hasLogSearch := s.hasLogSearch ||
        (strOccurs "splunk" pattern || strOccurs "elasticsearch" pattern ||
         strOccurs "kibana" pattern),
      hasAudit := s.hasAudit || strOccurs "audit" pattern,
      hasApiCall := s.hasApiCall || (strOccurs "api" pattern || strOccurs "rest" pattern),
      hasSystemError := s.hasSystemError || strOccurs "error" pattern }
  else if category == "security" then
    { s with
      hasConfidential := s.hasConfidential ||
        (strOccurs "password" pattern || strOccurs "secret" pattern ||
         strOccurs "token" pattern) }
  else if category == "availability" then
    { s with
      hasRetry := s.hasRetry || strOccurs "retry" pattern,
      hasTimeouts := s.hasTimeouts || strOccurs "timeout" pattern,
      hasAutoScaling := s.hasAutoScaling || strOccurs "autoscale" pattern,
      hasThrottling := s.hasThrottling ||
        (strOccurs "throttle" pattern || strOccurs "rate" pattern),
      hasCircuit := s.hasCircuit ||
        (strOccurs "circuit" pattern || strOccurs "hystrix" pattern) }
  else if category == "error_handling" then
    { s with
      hasTrace := s.hasTrace ||
        (strOccurs "trace" pattern || strOccurs "correlation" pattern),
      hasUiError := s.hasUiError ||
        (strOccurs "console.error" pattern || strOccurs "Sentry" pattern),
      hasHttpCodes := s.hasHttpCodes ||
        (strOccurs "status" pattern && (strOccurs "4" pattern || strOccurs "5" pattern)),
      hasClientTracking := s.hasClientTracking ||
        (strOccurs "error.*track" pattern || strOccurs "reportError" pattern) }
  else
    s

/-- Add `n` to the match counter of `category`. -/
def bumpCategory (catMatches : List (String × ℕ)) (category : String) (n : ℕ) :
    List (String × ℕ) :=
  catMatches.map fun kv => if kv.1 == category then (kv.1, kv.2 + n) else kv

/-- Scan state of the regex analyzer: flags, per-category match counts and
the file-extension histogram. -/
structure RegexScanState where
  flags : RegexFlags
  catMatches : List (String × ℕ)
  fileTypes : Dict

/-- Per-file step of the regex analyzer loop
(`workflow_service.py:1713-1765`): count the file extension (with dot,
lowercased, empty allowed here), then run every pattern of every category
over the content, adding the match count and applying the flag updates when
at least one match was found. The regex engine itself (`re.finditer` with
`IGNORECASE | MULTILINE`) is abstracted as the `matcher` oracle returning
the number of matches of a pattern in a content string. -/
def regexScanFile (matcher : String → String → ℕ)
    (patterns : List (String × List String)) (s : RegexScanState)
    (fileItem : String × String) : RegexScanState :=
  let ext := strLower (splitExtension fileItem.1)
  let s := { s with fileTypes := dictIncr s.fileTypes ext }
  patterns.foldl
    (fun s cat =>
      cat.2.foldl
        (fun s pattern =>
          let m := matcher pattern fileItem.2
          { s with
            catMatches := bumpCategory s.catMatches cat.1 m,
            flags := if m > 0 then updateRegexFlags cat.1 pattern s.flags else s.flags })
        s)
    s

/-- Models `WorkflowService._analyze_repository_with_regex`
(`workflow_service.py:1654-1780`). The `minMatches` configuration is accepted
but, as in the source, never used after its defaulting. -/
def analyzeRepositoryWithRegex (matcher : String → String → ℕ)
    (filesData : List (String × String)) (patterns : List (String × List String))
    (_minMatches : List (String × ℕ)) : Dict :=
  let init : RegexScanState :=
    { flags := {},
      catMatches := patterns.map (fun cat => (cat.1, 0)),
      fileTypes := [] }
  let final := filesData.foldl (regexScanFile matcher patterns) init
  let coverage := testCoverageOf filesData
  [("has_logging_framework", .bool final.flags.hasLoggingFramework),
   ("has_log_search_integration", .bool final.flags.hasLogSearch),
   ("has_confidential_data_logging", .bool final.flags.hasConfidential),
   ("has_audit_logs", .bool final.flags.hasAudit),
   ("has_trace_id", .bool final.flags.hasTrace),
   ("has_api_call_logging", .bool final.flags.hasApiCall),
   ("has_ui_error_logging", .bool final.flags.hasUiError),
   ("has_retry_logic", .bool final.flags.hasRetry),
   ("has_io_timeouts", .bool final.flags.hasTimeouts),
   ("has_auto_scaling_config", .bool final.flags.hasAutoScaling),
   ("has_throttling", .bool final.flags.hasThrottling),
   ("has_circuit_breaker", .bool final.flags.hasCircuit),
   ("has_system_error_logging", .bool final.flags.hasSystemError),
   ("has_standard_http_codes", .bool final.flags.hasHttpCodes),
   ("has_client_error_tracking", .bool final.flags.hasClientTracking),
   ("has_automated_tests", .bool (decide (coverage > 0))),
   ("patterns_found", .dict (final.catMatches.map fun kv => (kv.1, .int (kv.2 : Int)))),
   ("file_types", .dict final.fileTypes),
   ("test_coverage", .int coverage)]

/-- A reachable LLM analysis result: the parse of a report whose availability
section mentions retries, over an empty collected corpus (e.g. a repository
none of whose files pass the include filters). -/
def llmResultsSample : Dict :=
  parseLlmAnalysisReport "# Availability Analysis retry" []

/-- The heuristic analysis result for the same empty corpus (the regex engine
is never consulted on an empty corpus, so the constant-zero matcher is
exact), with the four pattern categories the flag updates dispatch on. -/
def regexResultsSample : Dict :=
  analyzeRepositoryWithRegex (fun _ _ => 0) []
    [("logging", []), ("security", []), ("availability", []), ("error_handling", [])] []

theorem stepFold_eq (acc : Bool) (r : StepRun) :
    stepFold acc r = (acc && (stepSuccessFlag r).getD true) := by
  cases r with
  | executed s => cases s <;> simp [stepFold, stepSuccessFlag]
  | skippedStep => simp [stepFold, stepSuccessFlag]
  | raised m => simp [stepFold, stepSuccessFlag]
  | missing => simp [stepFold, stepSuccessFlag]

theorem foldSteps_eq_all (runs : List StepRun) :
    foldSteps runs = (runs.all fun r => (stepSuccessFlag r).getD true) := by
  have aux : ∀ (l : List StepRun) (acc : Bool),
      l.foldl stepFold acc = (acc && l.all fun r => (stepSuccessFlag r).getD true) := by
    intro l
    induction l with
    | nil => intro acc; simp
    | cons h t ih =>
      intro acc
      rw [List.foldl_cons, stepFold_eq, ih, List.all_cons, Bool.and_assoc]
  simpa [foldSteps] using aux runs true

/-- C1: in `run_validation_workflow`, `overall_compliance` equals the AND of
the success flags of all executed steps (skipped steps contribute `true`, a
caught executor exception contributes `false`, missing step rows are not
executed and do not contribute), the workflow status is `completed` exactly
when that AND holds and `failed` exactly when it does not, and any single
unsuccessful step run forces `overall_compliance = false` together with
status `failed`. -/
theorem workflow_compliance_is_and_of_step_success (appName : String) (runs : List StepRun) :
    (runValidationWorkflow appName runs).overallCompliance
        = (runs.all fun r => (stepSuccessFlag r).getD true)
    ∧ ((runValidationWorkflow appName runs).status = WorkflowStatus.completed
        ↔ (runs.all fun r => (stepSuccessFlag r).getD true) = true)
    ∧ ((runValidationWorkflow appName runs).status = WorkflowStatus.failed
        ↔ (runs.all fun r => (stepSuccessFlag r).getD true) = false)
    ∧ (∀ r ∈ runs, stepSuccessFlag r = some false →
        (runValidationWorkflow appName runs).overallCompliance = false
        ∧ (runValidationWorkflow appName runs).status = WorkflowStatus.failed) := by
  have hall := foldSteps_eq_all runs
  cases h : (runs.all fun r => (stepSuccessFlag r).getD true) with
  | true =>
    have hf : foldSteps runs = true := hall.trans h
    refine ⟨by simp [runValidationWorkflow, hf], by simp [runValidationWorkflow, hf],
      by simp [runValidationWorkflow, hf], ?_⟩
    intro r hr hflag
    have hmem := List.all_eq_true.mp h r hr
    rw [hflag] at hmem
    simp at hmem
  | false =>
    have hf : foldSteps runs = false := hall.trans h
    exact ⟨by simp [runValidationWorkflow, hf], by simp [runValidationWorkflow, hf],
      by simp [runValidationWorkflow, hf],
      fun r hr hflag => ⟨by simp [runValidationWorkflow, hf], by simp [runValidationWorkflow, hf]⟩⟩

/-- Witness for C1: a concrete run whose second step raised an exception ends
non-compliant and failed. -/
theorem workflow_compliance_is_and_of_step_success_witness :
    (runValidationWorkflow "Demo" [StepRun.executed true, StepRun.raised "boom"]).overallCompliance
        = false
    ∧ (runValidationWorkflow "Demo" [StepRun.executed true, StepRun.raised "boom"]).status
        = WorkflowStatus.failed :=
  (workflow_compliance_is_and_of_step_success "Demo"
      [StepRun.executed true, StepRun.raised "boom"]).2.2.2
    (StepRun.raised "boom") (by simp) rfl

theorem reconcileItem_idem (findings : List Finding) (ev : Option String)
    (c : String) (item : Item) :
    reconcileItem findings ev c (reconcileItem findings ev c item)
      = reconcileItem findings ev c item := by
  cases h : findings.any (fun f => strOccurs item.description f.description) with
  | true => simp [reconcileItem, itemHasIssue, h]
  | false =>
    cases hs : item.status == "Verified" with
    | true =>
      have hs' : item.status = "Verified" := by
        simpa using hs
      simp [reconcileItem, itemHasIssue, h, hs']
    | false =>
      have hs' : (item.status != "Verified") = true := by
        simp [bne, hs]
      simp [reconcileItem, itemHasIssue, h, hs']

/-- C8: reconciliation is idempotent — for a fixed finding set, evidence URL
and workflow comment, running `_update_checklist_items` a second time over
the items produced by the first run changes no item (status, evidence and
comments included). -/
theorem reconciliation_idempotent (findings : List Finding) (ev : Option String)
    (c : String) (items : List Item) :
    reconcileItems findings ev c (reconcileItems findings ev c items)
      = reconcileItems findings ev c items := by
  unfold reconcileItems
  rw [List.map_map]
  exact List.map_congr_left fun item _ => reconcileItem_idem findings ev c item

/-- C4 counterexample: a checklist item that is already `Verified` is
downgraded to `In Progress` by reconciliation when some finding description
contains the item description — exactly the situation the claim says can
never change the item status. -/
theorem verified_item_downgrade_cex :
    ({ description := "Log system errors", status := "Verified",
       evidence := some "old", comments := "ok" } : Item).status = "Verified"
    ∧ (reconcileItem
        [{ description := "Failed to validate requirement: Log system errors",
           severity := Severity.warning,
           recommendation := "Review requirement implementation and update code" }]
        (some "https://example.com/repo.git") "wf"
        { description := "Log system errors", status := "Verified",
          evidence := some "old", comments := "ok" }).status = "In Progress" := by
  constructor
  · rfl
  · decide

/-- C4 (amended): a reconciliation pass never moves a `Verified` item to
`Completed`; it leaves a `Verified` item entirely unchanged when no finding
description contains the item description, and moves it to `In Progress`
(with a needs-attention comment) when some finding description does. -/
theorem verified_item_reconciliation (findings : List Finding) (ev : Option String)
    (c : String) (item : Item) (h : item.status = "Verified") :
    (reconcileItem findings ev c item).status ≠ "Completed"
    ∧ (itemHasIssue findings item = false → reconcileItem findings ev c item = item)
    ∧ (itemHasIssue findings item = true →
        (reconcileItem findings ev c item).status = "In Progress") := by
  cases hi : itemHasIssue findings item with
  | true =>
    refine ⟨?_, by simp, fun _ => ?_⟩
    · simp [reconcileItem, hi]
    · simp [reconcileItem, hi]
  | false =>
    refine ⟨?_, fun _ => ?_, by simp⟩
    · simp [reconcileItem, hi, h]
    · simp [reconcileItem, hi, h]

/-- Witness for C4 (amended): a `Verified` item with no matching finding is
left unchanged and in particular never set to `Completed`. -/
theorem verified_item_reconciliation_witness :
    (reconcileItem [] (some "u") "wf"
        { description := "Log system errors", status := "Verified",
          evidence := some "old", comments := "ok" }).status ≠ "Completed"
    ∧ reconcileItem [] (some "u") "wf"
        { description := "Log system errors", status := "Verified",
          evidence := some "old", comments := "ok" }
      = { description := "Log system errors", status := "Verified",
          evidence := some "old", comments := "ok" } :=
  ⟨(verified_item_reconciliation [] (some "u") "wf"
      { description := "Log system errors", status := "Verified",
        evidence := some "old", comments := "ok" } rfl).1,
   (verified_item_reconciliation [] (some "u") "wf"
      { description := "Log system errors", status := "Verified",
        evidence := some "old", comments := "ok" } rfl).2.1 (by decide)⟩

theorem ruleLookup_mem (desc : String) (f : Dict → Application → RuleResult)
    (h : ruleLookup desc = some f) : (desc, f) ∈ ruleTable := by
  unfold ruleLookup at h
  cases hf : ruleTable.find? (fun e => e.1 == desc) with
  | none => rw [hf] at h; exact absurd h (by simp)
  | some e =>
    rw [hf] at h
    injection h with h2
    have hp := List.find?_some hf
    have he : e ∈ ruleTable := List.mem_of_find?_eq_some hf
    have heq : e = (desc, f) := by
      obtain ⟨k, g⟩ := e
      simp only [Prod.mk.injEq]
      simp only at h2
      exact ⟨by simpa using hp, h2⟩
    rwa [heq] at he

theorem rules_false_on_error_dict (s : String) (app : Application) :
    ∀ e ∈ ruleTable, (e.2 [("error", PyVal.str s)] app).validated = false := by
  intro e he
  fin_cases he <;> rfl

/-- C2 (amended): when `git clone` exits non-zero, times out, or raises, the
analysis returns an `{"error": ...}` map carrying the underlying tool
diagnostic (a timeout-specific message in the timeout case) — it is reported
once, not retried — but the owning app-requirements step does not fail: it
runs to `completed` with no error message recorded, using the error map as
its capability map, under which every checklist item fails validation. -/
theorem clone_error_reported_step_completes (stderr msg : String)
    (analyzeFiles : List (String × String) → Dict) (cats : List (List Item))
    (url : String) (app : Application) :
    analyzeRepository (CloneOutcome.exitNonzero stderr) analyzeFiles
        = [("error", PyVal.str ("Failed to clone repository: " ++ stderr))]
    ∧ analyzeRepository CloneOutcome.timedOut analyzeFiles
        = [("error", PyVal.str "Repository clone timed out")]
    ∧ analyzeRepository (CloneOutcome.cloneRaised msg) analyzeFiles
        = [("error", PyVal.str ("Error cloning repository: " ++ msg))]
    ∧ (validateAppRequirements cats url
        (analyzeRepository (CloneOutcome.exitNonzero stderr) analyzeFiles) app).status
        = StepStatus.completed
    ∧ (validateAppRequirements cats url
        (analyzeRepository (CloneOutcome.exitNonzero stderr) analyzeFiles) app).errorMessage
        = none
    ∧ (validateAppRequirements cats url
        (analyzeRepository (CloneOutcome.exitNonzero stderr) analyzeFiles) app).success = true
    ∧ ∀ item ∈ cats.flatten,
        (evalAppItem (analyzeRepository (CloneOutcome.exitNonzero stderr) analyzeFiles)
          url app item).passed = false := by
  refine ⟨rfl, rfl, rfl, rfl, rfl, rfl, ?_⟩
  intro item _
  cases hr : ruleLookup item.description with
  | none => simp [evalAppItem, analyzeRepository, hr]
  | some f =>
    have hv := rules_false_on_error_dict ("Failed to clone repository: " ++ stderr) app
      (item.description, f) (ruleLookup_mem _ _ hr)
    simp only at hv
    simp [evalAppItem, analyzeRepository, hr, hv]

/-- C2 counterexample: a concrete run in which the clone fails (non-zero
exit) and the owning app-requirements step nevertheless ends `completed`
with no error message persisted, contrary to the claimed `failed` status
with the diagnostic in the error field. -/
theorem clone_error_step_not_failed_cex :
    (validateAppRequirements
        [[{ description := "Retry Logic", status := "Not Started",
            evidence := none, comments := "" }]]
        "https://example.com/repo.git"
        (analyzeRepository (CloneOutcome.exitNonzero "fatal: repository not found")
          (fun _ => [])) ⟨"app-1", "Demo"⟩).status = StepStatus.completed
    ∧ (validateAppRequirements
        [[{ description := "Retry Logic", status := "Not Started",
            evidence := none, comments := "" }]]
        "https://example.com/repo.git"
        (analyzeRepository (CloneOutcome.exitNonzero "fatal: repository not found")
          (fun _ => [])) ⟨"app-1", "Demo"⟩).status ≠ StepStatus.failed
    ∧ (validateAppRequirements
        [[{ description := "Retry Logic", status := "Not Started",
            evidence := none, comments := "" }]]
        "https://example.com/repo.git"
        (analyzeRepository (CloneOutcome.exitNonzero "fatal: repository not found")
          (fun _ => [])) ⟨"app-1", "Demo"⟩).errorMessage = none := by
  refine ⟨rfl, by decide, rfl⟩

/-- Witness for C2 (amended) at a concrete failed clone and checklist item. -/
theorem clone_error_reported_step_completes_witness :
    analyzeRepository (CloneOutcome.exitNonzero "fatal: could not read") (fun _ => [])
        = [("error", PyVal.str "Failed to clone repository: fatal: could not read")]
    ∧ (evalAppItem (analyzeRepository (CloneOutcome.exitNonzero "fatal: could not read")
        (fun _ => [])) "u" ⟨"app-1", "Demo"⟩
        { description := "Retry Logic", status := "Not Started", evidence := none,
          comments := "" }).passed = false := by
  refine ⟨?_, ?_⟩
  · exact ((clone_error_reported_step_completes "fatal: could not read" "" (fun _ => [])
      [] "u" ⟨"app-1", "Demo"⟩).1).trans rfl
  · exact (clone_error_reported_step_completes "fatal: could not read" "" (fun _ => [])
      [[{ description := "Retry Logic", status := "Not Started", evidence := none,
          comments := "" }]] "u" ⟨"app-1", "Demo"⟩).2.2.2.2.2.2
      { description := "Retry Logic", status := "Not Started", evidence := none,
        comments := "" } (by simp)

/-- C3 counterexample: one checklist item whose description has no rule-table
entry is counted in `failed_items` and receives a warning finding — it does
not sit outside both counts with no finding as claimed. -/
theorem unruled_item_claim_cex :
    (validateAppRequirements
        [[{ description := "Completely unknown requirement", status := "Not Started",
            evidence := none, comments := "" }]] "u"
        simulatedRepositoryAnalysis ⟨"app-1", "Demo"⟩).details
      = some { totalItems := 1, passedItems := 0, failedItems := 1,
               compliancePercentage := compliancePct 0 1 }
    ∧ compliancePct 0 1 = 0
    ∧ (validateAppRequirements
        [[{ description := "Completely unknown requirement", status := "Not Started",
            evidence := none, comments := "" }]] "u"
        simulatedRepositoryAnalysis ⟨"app-1", "Demo"⟩).findings
      = [{ description := "Failed to validate requirement: Completely unknown requirement",
           severity := Severity.warning,
           recommendation := "Review requirement implementation and update code" }] := by
  refine ⟨rfl, by norm_num [compliancePct], rfl⟩

/-- C3 (amended): an item whose description has no rule-table entry is
treated as failing validation — it is not marked verified (status, evidence
unchanged), it increments the failed count rather than the passed count, a
warning finding is emitted for it and its comments record the missing rule —
but its presence never fails the step. -/
theorem unruled_item_counts_as_failed (item : Item)
    (h : ruleLookup item.description = none) (d : Dict) (url : String)
    (app : Application) :
    (evalAppItem d url app item).passed = false
    ∧ (evalAppItem d url app item).itemOut.status = item.status
    ∧ (evalAppItem d url app item).itemOut.evidence = item.evidence
    ∧ (evalAppItem d url app item).itemOut.comments
        = "Validation failed: " ++ "No matching validation rule found"
    ∧ (evalAppItem d url app item).finding
        = some { description := "Failed to validate requirement: " ++ item.description,
                 severity := Severity.warning,
                 recommendation := "Review requirement implementation and update code" }
    ∧ ∀ cats, (validateAppRequirements cats url d app).status = StepStatus.completed
        ∧ (validateAppRequirements cats url d app).success = true := by
  refine ⟨?_, ?_, ?_, ?_, ?_, fun cats => ⟨rfl, rfl⟩⟩ <;>
    simp [evalAppItem, h]

/-- Witness for C3 (amended) at a concrete unruled item. -/
theorem unruled_item_counts_as_failed_witness :
    (evalAppItem simulatedRepositoryAnalysis "u" ⟨"app-1", "Demo"⟩
        { description := "Completely unknown requirement", status := "Not Started",
          evidence := none, comments := "" }).passed = false
    ∧ (validateAppRequirements [] "u" simulatedRepositoryAnalysis ⟨"app-1", "Demo"⟩).status
        = StepStatus.completed :=
  ⟨(unruled_item_counts_as_failed
      { description := "Completely unknown requirement", status := "Not Started",
        evidence := none, comments := "" } rfl simulatedRepositoryAnalysis "u"
      ⟨"app-1", "Demo"⟩).1,
   ((unruled_item_counts_as_failed
      { description := "Completely unknown requirement", status := "Not Started",
        evidence := none, comments := "" } rfl simulatedRepositoryAnalysis "u"
      ⟨"app-1", "Demo"⟩).2.2.2.2.2 []).1⟩

/-- C5 counterexample: a configured `jira` integration whose health check
fails leaves the step row in status `completed`, not the claimed `failed`. -/
theorem jira_failure_step_status_cex :
    (checkExternalIntegrations [("jira", PyVal.dict [])] (fun _ => false)).status
        = StepStatus.completed
    ∧ (checkExternalIntegrations [("jira", PyVal.dict [])] (fun _ => false)).status
        ≠ StepStatus.failed :=
  ⟨rfl, by decide⟩

/-- C5 (amended): with a non-empty integrations map containing `jira` whose
health check fails, the step row ends `completed` (not `failed`) but its
returned success flag is false, exactly one error-severity finding
referencing jira is recorded, and a workflow executing this step ends with
`overall_compliance = false` and status `failed`. -/
theorem jira_failure_step_and_workflow (cfg : PyVal) (healthOk : String → Bool)
    (h : healthOk "jira" = false) (appName : String) :
    (checkExternalIntegrations [("jira", cfg)] healthOk).status = StepStatus.completed
    ∧ (checkExternalIntegrations [("jira", cfg)] healthOk).success = false
    ∧ (checkExternalIntegrations [("jira", cfg)] healthOk).findings
        = [{ description := "Failed to integrate with jira", severity := Severity.error,
             recommendation := "Check jira configuration and credentials" }]
    ∧ (runValidationWorkflow appName
        [StepRun.executed (checkExternalIntegrations [("jira", cfg)] healthOk).success]
        ).overallCompliance = false
    ∧ (runValidationWorkflow appName
        [StepRun.executed (checkExternalIntegrations [("jira", cfg)] healthOk).success]
        ).status = WorkflowStatus.failed := by
  have hs : (checkExternalIntegrations [("jira", cfg)] healthOk).success = false := by
    simp [checkExternalIntegrations, h]
  refine ⟨rfl, hs, ?_, ?_, ?_⟩
  · simp [checkExternalIntegrations, h]
  · rw [hs]; rfl
  · rw [hs]; rfl

/-- Witness for C5 (amended) at a concrete failing health check. -/
theorem jira_failure_step_and_workflow_witness :
    (checkExternalIntegrations [("jira", PyVal.dict [])] (fun _ => false)).success = false
    ∧ (runValidationWorkflow "Demo"
        [StepRun.executed
          (checkExternalIntegrations [("jira", PyVal.dict [])] (fun _ => false)).success]
        ).status = WorkflowStatus.failed :=
  ⟨(jira_failure_step_and_workflow (PyVal.dict []) (fun _ => false) rfl "Demo").2.1,
   (jira_failure_step_and_workflow (PyVal.dict []) (fun _ => false) rfl "Demo").2.2.2.2⟩

theorem pyGet_append_some (l1 l2 : Dict) (k : String) (v : PyVal)
    (h : pyGet l1 k = some v) : pyGet (l1 ++ l2) k = some v := by
  induction l1 with
  | nil => cases h
  | cons hd t ih =>
    obtain ⟨a, b⟩ := hd
    cases hka : (k == a) with
    | true => simp [pyGet, hka] at h ⊢; exact h
    | false =>
      simp only [List.cons_append, pyGet, hka, Bool.false_eq_true, if_false] at h ⊢
      exact ih h

theorem pyGet_append_none (l1 l2 : Dict) (k : String)
    (h : pyGet l1 k = none) : pyGet (l1 ++ l2) k = pyGet l2 k := by
  induction l1 with
  | nil => rfl
  | cons hd t ih =>
    obtain ⟨a, b⟩ := hd
    cases hka : (k == a) with
    | true => simp [pyGet, hka] at h
    | false =>
      simp only [List.cons_append, pyGet, hka, Bool.false_eq_true, if_false] at h ⊢
      exact ih h

theorem pyGet_mapUpdate_none (d1 d2 : Dict) (k : String) (h : pyGet d1 k = none) :
    pyGet (d1.map fun kv => match pyGet d2 kv.1 with
      | some w => (kv.1, w)
      | none => kv) k = none := by
  induction d1 with
  | nil => rfl
  | cons hd t ih =>
    obtain ⟨a, b⟩ := hd
    cases hka : (k == a) with
    | true => simp [pyGet, hka] at h
    | false =>
      simp only [pyGet, hka, Bool.false_eq_true, if_false] at h
      cases hd2 : pyGet d2 a <;>
        simpa [List.map_cons, pyGet, hd2, hka] using ih h

theorem pyGet_mapUpdate_some (d1 d2 : Dict) (k : String) (u : PyVal)
    (h : pyGet d1 k = some u) :
    pyGet (d1.map fun kv => match pyGet d2 kv.1 with
      | some w => (kv.1, w)
      | none => kv) k
      = match pyGet d2 k with
        | some w => some w
        | none => some u := by
  induction d1 with
  | nil => cases h
  | cons hd t ih =>
    obtain ⟨a, b⟩ := hd
    cases hka : (k == a) with
    | true =>
      have hk : k = a := by simpa using hka
      subst hk
      simp only [pyGet, beq_self_eq_true, if_true] at h
      injection h with hu
      subst hu
      cases hd2 : pyGet d2 k <;> simp [List.map_cons, pyGet, hd2]
    | false =>
      simp only [pyGet, hka, Bool.false_eq_true, if_false] at h
      cases hd2 : pyGet d2 a <;>
        simpa [List.map_cons, pyGet, hd2, hka] using ih h

theorem pyGet_filter_notin (d1 d2 : Dict) (k : String) (h : pyGet d1 k = none) :
    pyGet (d2.filter fun kv => (pyGet d1 kv.1).isNone) k = pyGet d2 k := by
  induction d2 with
  | nil => rfl
  | cons hd t ih =>
    obtain ⟨a, b⟩ := hd
    cases hka : (k == a) with
    | true =>
      have hk : k = a := by simpa using hka
      subst hk
      have hpred : (pyGet d1 k).isNone = true := by simp [h]
      simp [List.filter_cons, hpred, pyGet]
    | false =>
      cases hpred : (pyGet d1 a).isNone with
      | true => simp [List.filter_cons, hpred, pyGet, hka, ih]
      | false => simp [List.filter_cons, hpred, pyGet, hka, ih]

/-- C6 (amended): when both the heuristic and the LLM tier produce results
and the LLM succeeds, the returned capability map is the LLM result updated
with the heuristic result — heuristic values override the LLM value on every
key the heuristic produces, while the LLM contributes exactly the keys the
heuristic lacks; in particular heuristic results are never discarded. -/
theorem heuristic_overrides_llm_merge (llmResults regexResults : Dict) (k : String) :
    (∀ v, pyGet regexResults k = some v →
        pyGet (mergeAnalysisResults llmResults regexResults) k = some v)
    ∧ (pyGet regexResults k = none →
        pyGet (mergeAnalysisResults llmResults regexResults) k = pyGet llmResults k) := by
  constructor
  · intro v h2
    unfold mergeAnalysisResults dictUpdate
    cases h1 : pyGet llmResults k with
    | none =>
      rw [pyGet_append_none _ _ _ (pyGet_mapUpdate_none llmResults regexResults k h1),
        pyGet_filter_notin llmResults regexResults k h1]
      exact h2
    | some u =>
      rw [pyGet_append_some _ _ _ _ ((pyGet_mapUpdate_some llmResults regexResults k u h1).trans
        (by rw [h2]))]
  · intro h2
    unfold mergeAnalysisResults dictUpdate
    cases h1 : pyGet llmResults k with
    | none =>
      rw [pyGet_append_none _ _ _ (pyGet_mapUpdate_none llmResults regexResults k h1),
        pyGet_filter_notin llmResults regexResults k h1]
      exact h2
    | some u =>
      rw [pyGet_append_some _ _ _ _ ((pyGet_mapUpdate_some llmResults regexResults k u h1).trans
        (by rw [h2]))]

/-- C6 counterexample: a reachable pair of analysis results (an LLM report
whose availability section mentions retries, over an empty collected corpus)
in which the LLM reports `has_retry_logic = true`, the heuristic reports
`false`, and the merged map returns the heuristic `false` — the LLM is not
allowed to override the heuristic flag. -/
theorem llm_override_cex :
    pyGet llmResultsSample "has_retry_logic" = some (PyVal.bool true)
    ∧ pyGet regexResultsSample "has_retry_logic" = some (PyVal.bool false)
    ∧ pyGet (mergeAnalysisResults llmResultsSample regexResultsSample) "has_retry_logic"
        = some (PyVal.bool false) :=
  ⟨rfl, rfl, rfl⟩

/-- Witness for C6 (amended) at the concrete sample analysis results. -/
theorem heuristic_overrides_llm_merge_witness :
    pyGet (mergeAnalysisResults llmResultsSample regexResultsSample) "has_audit_logs"
      = some (PyVal.bool false) :=
  (heuristic_overrides_llm_merge llmResultsSample regexResultsSample "has_audit_logs").1
    (PyVal.bool false) rfl

/-- C7 counterexample: an application with zero application-type checklist
items runs the app-requirements step to `completed` with `total_items = 0`
— the step is not `skipped` as claimed. -/
theorem zero_items_not_skipped_cex :
    (validateAppRequirements [] "u" simulatedRepositoryAnalysis ⟨"app-1", "Demo"⟩).status
        = StepStatus.completed
    ∧ (validateAppRequirements [] "u" simulatedRepositoryAnalysis ⟨"app-1", "Demo"⟩).status
        ≠ StepStatus.skipped
    ∧ (validateAppRequirements [] "u" simulatedRepositoryAnalysis ⟨"app-1", "Demo"⟩).details
        = some { totalItems := 0, passedItems := 0, failedItems := 0,
                 compliancePercentage := compliancePct 0 0 }
    ∧ compliancePct 0 0 = 0 := by
  refine ⟨rfl, by decide, rfl, by norm_num [compliancePct]⟩

/-- C7 (amended): with zero checklist items the app-requirements step always
completes with `total_items = 0` and compliance 0 (it has no skip branch),
while the platform-requirements step is `skipped` exactly when the
application has no platform categories at all and completes with
`total_items = 0` when categories exist but hold no items; in every
zero-item case neither step is `failed`, and neither completes with
`total_items > 0`. -/
theorem zero_items_requirement_steps (cats : List (List Item)) (url : String)
    (d : Dict) (app : Application) (passes : Item → Bool) (pid : String) :
    (cats.flatten = [] →
      (validateAppRequirements cats url d app).status = StepStatus.completed
      ∧ (validateAppRequirements cats url d app).details
          = some { totalItems := 0, passedItems := 0, failedItems := 0,
                   compliancePercentage := 0 })
    ∧ (validateAppRequirements cats url d app).status ≠ StepStatus.failed
    ∧ (validatePlatformRequirements [] passes pid).status = StepStatus.skipped
    ∧ (cats ≠ [] → cats.flatten = [] →
        (validatePlatformRequirements cats passes pid).status = StepStatus.completed
        ∧ (validatePlatformRequirements cats passes pid).details
            = some { totalItems := 0, passedItems := 0, failedItems := 0,
                     compliancePercentage := 0 })
    ∧ (validatePlatformRequirements cats passes pid).status ≠ StepStatus.failed := by
  refine ⟨?_, by simp [validateAppRequirements], rfl, ?_, ?_⟩
  · intro h
    refine ⟨rfl, ?_⟩
    simp [validateAppRequirements, h, compliancePct]
  · intro hne h
    obtain ⟨hd, t, rfl⟩ := List.exists_cons_of_ne_nil hne
    refine ⟨?_, ?_⟩
    · simp [validatePlatformRequirements]
    · simp [validatePlatformRequirements, h, compliancePct]
  · cases cats with
    | nil => simp [validatePlatformRequirements]
    | cons hd t => simp [validatePlatformRequirements]

/-- Witness for C7 (amended): concrete zero-item configurations for both
requirement steps. -/
theorem zero_items_requirement_steps_witness :
    (validateAppRequirements [[]] "u" simulatedRepositoryAnalysis ⟨"app-1", "Demo"⟩).status
        = StepStatus.completed
    ∧ (validatePlatformRequirements [] (fun _ => true) "p1").status = StepStatus.skipped
    ∧ (validatePlatformRequirements [[]] (fun _ => true) "p1").status
        = StepStatus.completed :=
  ⟨((zero_items_requirement_steps [[]] "u" simulatedRepositoryAnalysis ⟨"app-1", "Demo"⟩
      (fun _ => true) "p1").1 rfl).1,
   (zero_items_requirement_steps [] "u" simulatedRepositoryAnalysis ⟨"app-1", "Demo"⟩
      (fun _ => true) "p1").2.2.1,
   ((zero_items_requirement_steps [[]] "u" simulatedRepositoryAnalysis ⟨"app-1", "Demo"⟩
      (fun _ => true) "p1").2.2.2.1 (by simp) rfl).1⟩

theorem compliancePct_props (passed total : ℕ) (h : passed ≤ total) :
    0 ≤ compliancePct passed total ∧ compliancePct passed total ≤ 100
    ∧ (0 < total → compliancePct passed total = (passed : ℚ) / (total : ℚ) * 100)
    ∧ (total = 0 → compliancePct passed total = 0) := by
  unfold compliancePct
  rcases Nat.eq_zero_or_pos total with h0 | hpos
  · subst h0; simp
  · rw [if_pos hpos]
    have ht : (0 : ℚ) < (total : ℚ) := by exact_mod_cast hpos
    have hq : (passed : ℚ) ≤ (total : ℚ) := by exact_mod_cast h
    refine ⟨by positivity, ?_, fun _ => rfl,
      fun h0 => absurd h0 (Nat.pos_iff_ne_zero.mp hpos)⟩
    have hdiv : (passed : ℚ) / (total : ℚ) ≤ 1 := by
      rw [div_le_one ht]; exact hq
    calc (passed : ℚ) / (total : ℚ) * 100 ≤ 1 * 100 :=
          mul_le_mul_of_nonneg_right hdiv (by norm_num)
      _ = 100 := by norm_num

theorem validateAppRequirements_details_eq (cats : List (List Item)) (url : String)
    (d : Dict) (app : Application) :
    (validateAppRequirements cats url d app).details
      = some { totalItems := cats.flatten.length,
               passedItems := ((cats.flatten.map (evalAppItem d url app)).filter
                  (fun e => e.passed)).length,
               failedItems := ((cats.flatten.map (evalAppItem d url app)).filter
                  (fun e => !e.passed)).length,
               compliancePercentage := compliancePct
                 ((cats.flatten.map (evalAppItem d url app)).filter
                    (fun e => e.passed)).length
                 cats.flatten.length } := rfl

theorem validateAppRequirements_itemsOut_eq (cats : List (List Item)) (url : String)
    (d : Dict) (app : Application) :
    (validateAppRequirements cats url d app).itemsOut
      = (cats.flatten.map (evalAppItem d url app)).map (fun e => e.itemOut) := rfl

theorem validateAppRequirements_passed_le (cats : List (List Item)) (url : String)
    (d : Dict) (app : Application) :
    ((cats.flatten.map (evalAppItem d url app)).filter (fun e => e.passed)).length
      ≤ cats.flatten.length :=
  (List.length_filter_le _ _).trans (le_of_eq (List.length_map _ _))

theorem validatePlatformRequirements_details_cases (cats : List (List Item))
    (passes : Item → Bool) (pid : String) :
    (validatePlatformRequirements cats passes pid).details = none
    ∨ ∃ det, (validatePlatformRequirements cats passes pid).details = some det
        ∧ det.passedItems ≤ det.totalItems
        ∧ det.compliancePercentage = compliancePct det.passedItems det.totalItems := by
  cases cats with
  | nil => exact Or.inl rfl
  | cons hd t =>
    refine Or.inr ⟨_, rfl, ?_, rfl⟩
    exact (List.length_filter_le _ _).trans (le_of_eq (List.length_map _ _))

/-- C9: for both requirement steps, every recorded compliance percentage lies
in [0, 100], equals passed_items / total_items × 100 when total_items > 0,
and is exactly 0 when total_items = 0 — the division is never taken with a
zero denominator. -/
theorem compliance_percentage_bounds (cats : List (List Item)) (url : String)
    (d : Dict) (app : Application) (pcats : List (List Item)) (passes : Item → Bool)
    (pid : String) :
    (∀ det, (validateAppRequirements cats url d app).details = some det →
      0 ≤ det.compliancePercentage ∧ det.compliancePercentage ≤ 100
      ∧ (0 < det.totalItems →
          det.compliancePercentage = (det.passedItems : ℚ) / (det.totalItems : ℚ) * 100)
      ∧ (det.totalItems = 0 → det.compliancePercentage = 0))
    ∧ (∀ det, (validatePlatformRequirements pcats passes pid).details = some det →
      0 ≤ det.compliancePercentage ∧ det.compliancePercentage ≤ 100
      ∧ (0 < det.totalItems →
          det.compliancePercentage = (det.passedItems : ℚ) / (det.totalItems : ℚ) * 100)
      ∧ (det.totalItems = 0 → det.compliancePercentage = 0)) := by
  constructor
  · intro det hdet
    rw [validateAppRequirements_details_eq] at hdet
    injection hdet with he
    subst he
    have hle := validateAppRequirements_passed_le cats url d app
    exact compliancePct_props _ _ hle
  · intro det hdet
    rcases validatePlatformRequirements_details_cases pcats passes pid with hnone |
      ⟨det0, hd0, hle, hpct⟩
    · rw [hnone] at hdet; cases hdet
    · rw [hd0] at hdet
      injection hdet with he
      subst he
      rw [hpct]
      exact compliancePct_props _ _ hle

/-- Witness for C9 at a concrete one-item run whose item passes. -/
theorem compliance_percentage_bounds_witness :
    0 ≤ ({ totalItems := 1, passedItems := 1, failedItems := 0,
           compliancePercentage := compliancePct 1 1 } : ReqDetails).compliancePercentage
    ∧ ({ totalItems := 1, passedItems := 1, failedItems := 0,
         compliancePercentage := compliancePct 1 1 } : ReqDetails).compliancePercentage
        ≤ 100 :=
  have h := (compliance_percentage_bounds
      [[⟨"Retry Logic", "Not Started", none, ""⟩]] "u" simulatedRepositoryAnalysis
      ⟨"app-1", "Demo"⟩ [] (fun _ => true) "p1").1
    { totalItems := 1, passedItems := 1, failedItems := 0,
      compliancePercentage := compliancePct 1 1 } rfl
  ⟨h.1, h.2.1⟩

theorem ruleTable_validated_on_simulated (app : Application) :
    ∀ e ∈ ruleTable, (e.2 simulatedRepositoryAnalysis app).validated = true := by
  intro e he
  fin_cases he <;> rfl

theorem evalAppItem_simulated_passes (url : String) (app : Application) (item : Item)
    (h : (ruleLookup item.description).isSome = true) :
    (evalAppItem simulatedRepositoryAnalysis url app item).passed = true
    ∧ (evalAppItem simulatedRepositoryAnalysis url app item).itemOut.status
        = "Verified" := by
  obtain ⟨f, hf⟩ := Option.isSome_iff_exists.mp h
  have hv := ruleTable_validated_on_simulated app (item.description, f)
    (ruleLookup_mem _ _ hf)
  simp only at hv
  constructor <;> simp [evalAppItem, hf, hv]

/-- C10: each of the 16 rule functions in the app-requirements rule table
validates against the fixed simulated capability map; consequently an
app-requirements run whose analysis degrades to the simulated tier marks
every checklist item having a rule-table entry as `Verified`, counts all of
them as passed, and records a 100% compliance percentage over those items
whenever at least one exists. -/
theorem simulated_analysis_passes_all_rules (app : Application)
    (cats : List (List Item)) (url : String) :
    (∀ e ∈ ruleTable, (e.2 simulatedRepositoryAnalysis app).validated = true)
    ∧ ((∀ item ∈ cats.flatten, (ruleLookup item.description).isSome = true) →
        ∀ det, (validateAppRequirements cats url simulatedRepositoryAnalysis app).details
            = some det →
          det.passedItems = det.totalItems
          ∧ (0 < det.totalItems → det.compliancePercentage = 100))
    ∧ ((∀ item ∈ cats.flatten, (ruleLookup item.description).isSome = true) →
        ∀ it ∈ (validateAppRequirements cats url simulatedRepositoryAnalysis app).itemsOut,
          it.status = "Verified") := by
  refine ⟨ruleTable_validated_on_simulated app, ?_, ?_⟩
  · intro hall det hdet
    have hfilter : ((cats.flatten.map
          (evalAppItem simulatedRepositoryAnalysis url app)).filter (fun e => e.passed))
        = cats.flatten.map (evalAppItem simulatedRepositoryAnalysis url app) := by
      rw [List.filter_eq_self]
      intro e he
      obtain ⟨item, hitem, rfl⟩ := List.mem_map.mp he
      exact (evalAppItem_simulated_passes url app item (hall item hitem)).1
    rw [validateAppRequirements_details_eq] at hdet
    injection hdet with he
    subst he
    have hpt : ((cats.flatten.map
          (evalAppItem simulatedRepositoryAnalysis url app)).filter
          (fun e => e.passed)).length = cats.flatten.length := by
      rw [hfilter, List.length_map]
    refine ⟨hpt, ?_⟩
    intro hn
    show compliancePct _ _ = 100
    rw [hpt]
    unfold compliancePct
    rw [if_pos hn, div_self (Nat.cast_ne_zero.mpr hn.ne'), one_mul]
  · intro hall it hit
    rw [validateAppRequirements_itemsOut_eq] at hit
    obtain ⟨e, he, rfl⟩ := List.mem_map.mp hit
    obtain ⟨item, hitem, rfl⟩ := List.mem_map.mp he
    exact (evalAppItem_simulated_passes url app item (hall item hitem)).2

/-- Witness for C10 at a concrete one-item checklist whose description has a
rule-table entry. -/
theorem simulated_analysis_passes_all_rules_witness :
    ({ totalItems := 1, passedItems := 1, failedItems := 0,
       compliancePercentage := compliancePct 1 1 } : ReqDetails).passedItems
      = ({ totalItems := 1, passedItems := 1, failedItems := 0,
           compliancePercentage := compliancePct 1 1 } : ReqDetails).totalItems
    ∧ ({ totalItems := 1, passedItems := 1, failedItems := 0,
         compliancePercentage := compliancePct 1 1 } : ReqDetails).compliancePercentage
        = 100 :=
  have h := (simulated_analysis_passes_all_rules ⟨"app-1", "Demo"⟩
      [[⟨"Retry Logic", "Not Started", none, ""⟩]] "u").2.1
    (by intro item him; simp at him; subst him; rfl)
    { totalItems := 1, passedItems := 1, failedItems := 0,
      compliancePercentage := compliancePct 1 1 } rfl
  ⟨h.1, h.2 (by decide)⟩

end CloudTracker
